import Mathlib

/-!
# etcd2 registry adapter (`src/etcd2/etcd2.go`)

A shallow embedding of the adapter: the client factory `Factory.New` and the
operations `Ping`, `Register`, `Deregister`, `Refresh`, `Services` of
`EtcdAdapter`.

The adapter talks to three things that live outside the file: the go-etcd
client library, the Go standard library (`strconv`, `net`, `log`, `ioutil`,
`x509`) and the process environment.  They are modelled as follows.

* The go-etcd client is an interface `EtcdClient σ` over an arbitrary client
  state `σ`; every theorem quantifies over all implementations.  The wrapper
  `recording` adds, to any implementation, the list of requests it was asked
  to send, so that theorems can speak about the requests an operation issues.
* `strconv.Itoa`, `net.JoinHostPort`, the `uint64` conversion and
  `log.Println` are written out from their Go definitions.
* The process-wide logger is a list of entries threaded through the state
  (without the time stamp the logger puts in front of an entry).
* `log.Fatal` ends the process: `Factory.New` returns `Except Fatal _`.
* What `Factory.New` calls (the go-etcd constructors, `SetTransport`,
  `ioutil.ReadFile`, PEM decoding, `os.Getenv`) is an interface `Env κ ω` over
  arbitrary client handles `κ` and an arbitrary outside state `ω`; the wrapper
  `recordingEnv` adds the list of the calls made.
-/

namespace Etcd2

/-! ## Go standard library -/

/-- Go `error` value, observed through its `Error()` text. -/
structure GoError where
  msg : String
deriving DecidableEq, Repr

/-- Go `strconv.Itoa`: the decimal text of a signed integer. -/
def Itoa (i : Int) : String :=
  if i < 0 then "-" ++ Nat.repr i.natAbs else Nat.repr i.natAbs

/-- Go `net.JoinHostPort`: `host:port`, or `[host]:port` when the host contains a colon. -/
def JoinHostPort (host port : String) : String :=
  if ':' ∈ host.toList then "[" ++ host ++ "]:" ++ port else host ++ ":" ++ port

/-- Go conversion `uint64(x)` of a signed integer: the value modulo `2^64`. -/
def uint64 (x : Int) : Nat := (x % 2 ^ 64).toNat

/-- Range of the Go type `int` on a 64-bit platform. -/
def isGoInt (x : Int) : Prop := -(2 ^ 63) ≤ x ∧ x < 2 ^ 63

instance (x : Int) : Decidable (isGoInt x) := by
  unfold isGoInt; infer_instance

/-- Go `fmt.Sprintln` on operands already turned into text: blanks between, newline after. -/
def Sprintln (operands : List String) : String :=
  " ".intercalate operands ++ "\n"

/-! ## Data model -/

/-- Modelled from the spec: the type `bridge.Service` is declared in the host package
`bridge`, which is not part of the source file. The spec describes a service record
as identifying an instance by name and instance ID and carrying an IP address, a port
and a time to live; the field names and the `int` types are those the adapter code uses
(`service.Name`, `service.ID`, `service.IP`, `strconv.Itoa(service.Port)`,
`uint64(service.TTL)`). -/
structure Service where
  ID : String
  Name : String
  Port : Int
  IP : String
  TTL : Int
deriving DecidableEq, Repr

/-- Go-etcd `RawRequest` as built by `etcd.NewRawRequest(method, relativePath, values, cancel)`;
the adapter passes `nil` for the values and for the cancel channel. -/
structure RawRequest where
  Method : String
  RelativePath : String
  Values : List (String × String)
deriving DecidableEq, Repr

/-- Go-etcd `NewRawRequest` at `nil` values and `nil` cancel channel. -/
def NewRawRequest (method relativePath : String) : RawRequest :=
  ⟨method, relativePath, []⟩

/-- The calls of the go-etcd client that the adapter uses. `SyncCluster` reports success as a
boolean; the others return a response (dropped by the adapter) and an error. -/
structure EtcdClient (σ : Type) where
  SyncCluster : σ → Bool × σ
  Set : String → String → Nat → σ → Option GoError × σ
  Delete : String → Bool → σ → Option GoError × σ
  SendRequest : RawRequest → σ → Option GoError × σ

/-- A request handed to the client. -/
inductive Request where
  | SyncCluster
  | Set (key value : String) (ttl : Nat)
  | Delete (key : String) (recursive : Bool)
  | SendRequest (rr : RawRequest)
deriving DecidableEq, Repr

/-- Any client, extended with the list of the requests it was asked to send, oldest first. -/
def recording {σ : Type} (impl : EtcdClient σ) : EtcdClient (σ × List Request) where
  SyncCluster := fun c =>
    ((impl.SyncCluster c.1).1, ((impl.SyncCluster c.1).2, c.2 ++ [Request.SyncCluster]))
  Set := fun key value ttl c =>
    ((impl.Set key value ttl c.1).1, ((impl.Set key value ttl c.1).2, c.2 ++ [Request.Set key value ttl]))
  Delete := fun key recursive c =>
    ((impl.Delete key recursive c.1).1,
      ((impl.Delete key recursive c.1).2, c.2 ++ [Request.Delete key recursive]))
  SendRequest := fun rr c =>
    ((impl.SendRequest rr c.1).1, ((impl.SendRequest rr c.1).2, c.2 ++ [Request.SendRequest rr]))

/-- A client whose cluster refresh reports `b`, and which otherwise behaves as `impl`. -/
def withSyncResult {σ : Type} (impl : EtcdClient σ) (b : Bool) : EtcdClient σ where
  SyncCluster := fun c => (b, (impl.SyncCluster c).2)
  Set := impl.Set
  Delete := impl.Delete
  SendRequest := impl.SendRequest

/-- The adapter: `type EtcdAdapter struct { client *etcd.Client; path string }`. -/
structure EtcdAdapter (σ : Type) where
  client : σ
  path : String

/-- What an operation can change: the adapter (through its client) and the process log. -/
structure World (σ : Type) where
  r : EtcdAdapter σ
  log : List String

/-- Go `log.Println(operands...)`: one more entry in the log. -/
def World.Println {σ : Type} (w : World σ) (operands : List String) : World σ :=
  ⟨w.r, w.log ++ [Sprintln operands]⟩

/-- The world after the client moved to state `c`. -/
def World.withClient {σ : Type} (w : World σ) (c : σ) : World σ :=
  ⟨⟨c, w.r.path⟩, w.log⟩

/-! ## Adapter operations -/

/-- The method `syncEtcdCluster`: refresh the member list, log when it reports failure. -/
def EtcdAdapter.syncEtcdCluster {σ : Type} (impl : EtcdClient σ) (w : World σ) : World σ :=
  let res := impl.SyncCluster w.r.client
  let result := res.1
  let w := w.withClient res.2
  if !result then w.Println ["etcd: sync cluster was unsuccessful"] else w

/-- The method `Ping`. -/
def EtcdAdapter.Ping {σ : Type} (impl : EtcdClient σ) (w : World σ) : Option GoError × World σ :=
  let w := EtcdAdapter.syncEtcdCluster impl w
  let rr := NewRawRequest "GET" "version"
  let res := impl.SendRequest rr w.r.client
  let err := res.1
  let w := w.withClient res.2
  match err with
  | some e => (some e, w)
  | none => (none, w)

/-- The method `Register`. -/
def EtcdAdapter.Register {σ : Type} (impl : EtcdClient σ) (service : Service) (w : World σ) :
    Option GoError × World σ :=
  let w := EtcdAdapter.syncEtcdCluster impl w
  let path := w.r.path ++ "/" ++ service.Name ++ "/" ++ service.ID
  let port := Itoa service.Port
  let addr := JoinHostPort service.IP port
  let res := impl.Set path addr (uint64 service.TTL) w.r.client
  let err := res.1
  let w := w.withClient res.2
  match err with
  | some e => (err, w.Println ["etcd: failed to register service:", e.msg])
  | none => (err, w)

/-- The method `Deregister`. -/
def EtcdAdapter.Deregister {σ : Type} (impl : EtcdClient σ) (service : Service) (w : World σ) :
    Option GoError × World σ :=
  let w := EtcdAdapter.syncEtcdCluster impl w
  let path := w.r.path ++ "/" ++ service.Name ++ "/" ++ service.ID
  let res := impl.Delete path false w.r.client
  let err := res.1
  let w := w.withClient res.2
  match err with
  | some e => (err, w.Println ["etcd: failed to deregister service:", e.msg])
  | none => (err, w)

/-- The method `Refresh`. -/
def EtcdAdapter.Refresh {σ : Type} (impl : EtcdClient σ) (service : Service) (w : World σ) :
    Option GoError × World σ :=
  EtcdAdapter.Register impl service w

/-- The method `Services`. -/
def EtcdAdapter.Services {σ : Type} (_impl : EtcdClient σ) (w : World σ) :
    (List Service × Option GoError) × World σ :=
  (([], none), w)

/-- One call of the host into the adapter. -/
inductive Op where
  | Register (service : Service)
  | Deregister (service : Service)
  | Refresh (service : Service)
  | Ping

/-- The world after one call (the returned error is the host's business). -/
def Op.step {σ : Type} (impl : EtcdClient σ) (w : World σ) : Op → World σ
  | Op.Register s => (EtcdAdapter.Register impl s w).2
  | Op.Deregister s => (EtcdAdapter.Deregister impl s w).2
  | Op.Refresh s => (EtcdAdapter.Refresh impl s w).2
  | Op.Ping => (EtcdAdapter.Ping impl w).2

/-- The world after a sequence of calls. -/
def runOps {σ : Type} (impl : EtcdClient σ) (ops : List Op) (w : World σ) : World σ :=
  ops.foldl (Op.step impl) w

/-- The requests sent so far through a recording client. -/
def sent {σ : Type} (w : World (σ × List Request)) : List Request := w.r.client.2

/-! ## Client factory -/

/-- The two parts of `*url.URL` that the factory reads. -/
structure URL where
  Host : String
  Path : String
deriving DecidableEq, Repr

/-- One certificate decoded from PEM data. -/
abbrev Certificate := String

/-- Go `x509.CertPool`: a set of trusted certificates. -/
abbrev CertPool := List Certificate

/-- Go `tls.Config`, the one field the factory sets. -/
structure TLSConfig where
  RootCAs : CertPool
deriving DecidableEq, Repr

/-- Go `http.Transport`, the two fields the factory sets. -/
structure Transport where
  TLSClientConfig : TLSConfig
  DisableCompression : Bool
deriving DecidableEq, Repr

/-- End of the process through `log.Fatal` / `log.Fatalf`, with the text logged. -/
structure Fatal where
  msg : String
deriving DecidableEq, Repr

/-- What the factory calls outside itself, over any type `κ` of client handles and any state
`ω` of the outside: `os.Getenv`, the go-etcd constructors `NewTLSClient` (a client or an error)
and `NewClient`, `ioutil.ReadFile`, the decoding of PEM data done inside
`AppendCertsFromPEM` (the certificates found; none when nothing parses) and the go-etcd method
`SetTransport`. Which inputs make `NewTLSClient` or `ReadFile` fail is left to the
implementation; every theorem quantifies over all implementations. -/
structure Env (κ ω : Type) where
  Getenv : String → String
  NewTLSClient : List String → String → String → String → ω → Except GoError κ × ω
  NewClient : List String → ω → κ × ω
  ReadFile : String → ω → Except GoError String × ω
  DecodePEM : String → List Certificate
  SetTransport : κ → Transport → ω → κ × ω

/-- Go `x509.NewCertPool`. -/
def NewCertPool : CertPool := []

/-- Go `(*CertPool).AppendCertsFromPEM`: adds the certificates found in the data and reports
whether at least one was found. -/
def AppendCertsFromPEM {κ ω : Type} (env : Env κ ω) (pool : CertPool) (pemCerts : String) :
    Bool × CertPool :=
  (!(env.DecodePEM pemCerts).isEmpty, pool ++ env.DecodePEM pemCerts)

/-- A call the factory makes into go-etcd or the file system. -/
inductive Call where
  | NewTLSClient (machines : List String) (cert key caCert : String)
  | NewClient (machines : List String)
  | ReadFile (filename : String)
  | SetTransport (tr : Transport)
deriving DecidableEq, Repr

/-- Any outside, extended with the list of the calls made into it, oldest first. -/
def recordingEnv {κ ω : Type} (env : Env κ ω) : Env κ (ω × List Call) where
  Getenv := env.Getenv
  NewTLSClient := fun machines cert key caCert o =>
    ((env.NewTLSClient machines cert key caCert o.1).1,
      ((env.NewTLSClient machines cert key caCert o.1).2,
        o.2 ++ [Call.NewTLSClient machines cert key caCert]))
  NewClient := fun machines o =>
    ((env.NewClient machines o.1).1, ((env.NewClient machines o.1).2, o.2 ++ [Call.NewClient machines]))
  ReadFile := fun filename o =>
    ((env.ReadFile filename o.1).1, ((env.ReadFile filename o.1).2, o.2 ++ [Call.ReadFile filename]))
  DecodePEM := env.DecodePEM
  SetTransport := fun client tr o =>
    ((env.SetTransport client tr o.1).1,
      ((env.SetTransport client tr o.1).2, o.2 ++ [Call.SetTransport tr]))

/-- The method `Factory.New`, from the state `o` of the outside: the adapter or the fatal end,
and the state of the outside afterwards. -/
def Factory.New {κ ω : Type} (env : Env κ ω) (uri : URL) (o : ω) :
    Except Fatal (EtcdAdapter κ) × ω :=
  let cert := env.Getenv "ETCD_CERT_FILE"
  let key := env.Getenv "ETCD_KEY_FILE"
  let cacert := env.Getenv "ETCD_CA_CERT_FILE"
  let urls : List String := []
  if cacert ≠ "" then
    let urls := urls ++ ["https://" ++ uri.Host]
    if key ≠ "" ∧ cert ≠ "" then
      let res := env.NewTLSClient urls cert key cacert o
      match res.1 with
      | Except.error err => (Except.error ⟨"etcd: failure to connect: " ++ err.msg⟩, res.2)
      | Except.ok client => (Except.ok ⟨client, uri.Path⟩, res.2)
    else
      let built := env.NewClient urls o
      let client := built.1
      let read := env.ReadFile cacert built.2
      match read.1 with
      | Except.error err => (Except.error ⟨err.msg⟩, read.2)
      | Except.ok ca =>
        let caCertPool := NewCertPool
        let caCertPool := (AppendCertsFromPEM env caCertPool ca).2
        let tr : Transport := ⟨⟨caCertPool⟩, true⟩
        let set := env.SetTransport client tr read.2
        (Except.ok ⟨set.1, uri.Path⟩, set.2)
  else
    let urls := urls ++ ["http://" ++ uri.Host]
    let built := env.NewClient urls o
    (Except.ok ⟨built.1, uri.Path⟩, built.2)

/-- The calls made so far into a recording outside. -/
def calls {ω : Type} (o : ω × List Call) : List Call := o.2

/-- The calls made between the state `o` of a recording outside and a later state. -/
def madeSince {ω : Type} (o later : ω × List Call) : List Call :=
  (calls later).drop (calls o).length

/-- The member-URL list of a call that builds a client. -/
def Call.machines? : Call → Option (List String)
  | Call.NewTLSClient machines _ _ _ => some machines
  | Call.NewClient machines => some machines
  | _ => none

/-- Whether a call is the mutual-TLS constructor. -/
def Call.isTLSConstructor : Call → Bool
  | Call.NewTLSClient _ _ _ _ => true
  | _ => false

/-- Whether a call opens a file: `ReadFile`, or `NewTLSClient`, which is given file paths. -/
def Call.readsFile : Call → Bool
  | Call.NewTLSClient _ _ _ _ => true
  | Call.ReadFile _ => true
  | _ => false

/-! ## A concrete outside, used at the evaluation points -/

/-- A go-etcd client described by how it was made: the member URLs it was built from, the files
given to `NewTLSClient` (cert, key, CA) if it was built that way, and the transport put in its
place by `SetTransport` if any. -/
structure Client where
  machines : List String
  tlsFiles : Option (String × String × String)
  transport : Option Transport
deriving DecidableEq, Repr

/-- Go-etcd `NewClient`: a plain client; an empty member list stands for the local default. -/
def NewClient (machines : List String) : Client :=
  ⟨if machines = [] then ["http://127.0.0.1:4001"] else machines, none, none⟩

/-- Go-etcd `NewTLSClient` where the error it returns, if any, is given as `tlsErr`: that error,
or a client built from the member list that holds the three paths. -/
def NewTLSClient (tlsErr : Option GoError) (machines : List String) (cert key caCert : String) :
    Except GoError Client :=
  match tlsErr with
  | some err => Except.error err
  | none =>
    Except.ok ⟨if machines = [] then ["https://127.0.0.1:4001"] else machines,
      some (cert, key, caCert), none⟩

/-- Go-etcd `SetTransport`. -/
def Client.SetTransport (client : Client) (tr : Transport) : Client :=
  ⟨client.machines, client.tlsFiles, some tr⟩

/-! ## Concrete clients and inputs used at the evaluation points -/

/-- A client without state whose cluster refresh reports `syncOk` and whose requests all
return `reply`. -/
def constClient (syncOk : Bool) (reply : Option GoError) : EtcdClient Unit where
  SyncCluster := fun c => (syncOk, c)
  Set := fun _ _ _ c => (reply, c)
  Delete := fun _ _ c => (reply, c)
  SendRequest := fun _ c => (reply, c)

/-- A fresh world over a recording client: base path `base`, nothing sent, nothing logged. -/
def freshWorld (base : String) : World (Unit × List Request) :=
  ⟨⟨((), []), base⟩, []⟩

/-- An outside without state over described clients: the three variables set as given, every
file read giving `contents`, every PEM decoding giving `certs`, and `NewTLSClient` returning
the error `tlsErr` if one is given. -/
def mkEnv (cert key cacert : String) (contents : Except GoError String)
    (certs : List Certificate) (tlsErr : Option GoError) : Env Client Unit where
  Getenv := fun name =>
    if name = "ETCD_CERT_FILE" then cert
    else if name = "ETCD_KEY_FILE" then key
    else if name = "ETCD_CA_CERT_FILE" then cacert
    else ""
  NewTLSClient := fun machines c k ca o => (NewTLSClient tlsErr machines c k ca, o)
  NewClient := fun machines o => (NewClient machines, o)
  ReadFile := fun _ o => (contents, o)
  DecodePEM := fun _ => certs
  SetTransport := fun client tr o => (client.SetTransport tr, o)

/-- A service on an IPv6 address. -/
def ipv6Service : Service := ⟨"web-1", "web", 80, "::1", 30⟩

/-- A service with a negative time to live. -/
def negativeTTLService : Service := ⟨"web-1", "web", 8080, "10.0.0.7", -1⟩

/-- A service on an IPv4 address with a positive time to live. -/
def plainService : Service := ⟨"web-1", "web", 8080, "10.0.0.7", 30⟩

/-- The error every request of the failing client returns. -/
def refused : GoError := ⟨"connection refused"⟩

/-- The connection URI `etcd2://etcd:2379/services`. -/
def sampleURI : URL := ⟨"etcd:2379", "/services"⟩

/-- All three paths set; the TLS constructor succeeds. -/
def mutualEnv : Env Client Unit :=
  mkEnv "/tls/client.pem" "/tls/client.key" "/tls/ca.pem" (Except.ok "PEM") ["ca"] none

/-- Only the CA path set; the file is readable and holds one certificate. -/
def serverOnlyEnv : Env Client Unit := mkEnv "" "" "/tls/ca.pem" (Except.ok "PEM") ["ca"] none

/-- Certificate and key paths set, CA path empty. -/
def plainEnv : Env Client Unit :=
  mkEnv "/tls/client.pem" "/tls/client.key" "" (Except.ok "PEM") ["ca"] none

/-- Only the CA path set; the file is readable and holds nothing that parses as a certificate. -/
def unparseableCAEnv : Env Client Unit :=
  mkEnv "" "" "/tls/ca.pem" (Except.ok "not a certificate") [] none

/-! ## Shared lemmas -/

theorem path_syncEtcdCluster {σ : Type} (impl : EtcdClient σ) (w : World σ) :
    (EtcdAdapter.syncEtcdCluster impl w).r.path = w.r.path := by
  unfold EtcdAdapter.syncEtcdCluster
  simp only []
  split <;> rfl

theorem client_syncEtcdCluster {σ : Type} (impl : EtcdClient σ) (w : World σ) :
    (EtcdAdapter.syncEtcdCluster impl w).r.client = (impl.SyncCluster w.r.client).2 := by
  unfold EtcdAdapter.syncEtcdCluster
  simp only []
  split <;> rfl

theorem log_syncEtcdCluster {σ : Type} (impl : EtcdClient σ) (w : World σ) :
    (EtcdAdapter.syncEtcdCluster impl w).log =
      w.log ++ (if (impl.SyncCluster w.r.client).1 then []
        else [Sprintln ["etcd: sync cluster was unsuccessful"]]) := by
  unfold EtcdAdapter.syncEtcdCluster
  simp only []
  split
  · next h =>
    have hb : (impl.SyncCluster w.r.client).1 = false := by simpa using h
    simp [hb, World.withClient, World.Println]
  · next h =>
    have hb : (impl.SyncCluster w.r.client).1 = true := by simpa using h
    simp [hb, World.withClient]

theorem sent_syncEtcdCluster {σ : Type} (impl : EtcdClient σ) (w : World (σ × List Request)) :
    sent (EtcdAdapter.syncEtcdCluster (recording impl) w) = sent w ++ [Request.SyncCluster] := by
  unfold sent
  rw [client_syncEtcdCluster]
  rfl

theorem client_Register {σ : Type} (impl : EtcdClient σ) (service : Service) (w : World σ) :
    (EtcdAdapter.Register impl service w).2.r.client =
      (impl.Set (w.r.path ++ "/" ++ service.Name ++ "/" ++ service.ID)
        (JoinHostPort service.IP (Itoa service.Port)) (uint64 service.TTL)
        (EtcdAdapter.syncEtcdCluster impl w).r.client).2 := by
  unfold EtcdAdapter.Register
  simp only [path_syncEtcdCluster]
  split <;> rfl

theorem client_Deregister {σ : Type} (impl : EtcdClient σ) (service : Service) (w : World σ) :
    (EtcdAdapter.Deregister impl service w).2.r.client =
      (impl.Delete (w.r.path ++ "/" ++ service.Name ++ "/" ++ service.ID) false
        (EtcdAdapter.syncEtcdCluster impl w).r.client).2 := by
  unfold EtcdAdapter.Deregister
  simp only [path_syncEtcdCluster]
  split <;> rfl

theorem client_Ping {σ : Type} (impl : EtcdClient σ) (w : World σ) :
    (EtcdAdapter.Ping impl w).2.r.client =
      (impl.SendRequest (NewRawRequest "GET" "version")
        (EtcdAdapter.syncEtcdCluster impl w).r.client).2 := by
  unfold EtcdAdapter.Ping
  simp only []
  split <;> rfl

theorem sent_Register {σ : Type} (impl : EtcdClient σ) (service : Service)
    (w : World (σ × List Request)) :
    sent (EtcdAdapter.Register (recording impl) service w).2 =
      sent w ++ [Request.SyncCluster,
        Request.Set (w.r.path ++ "/" ++ service.Name ++ "/" ++ service.ID)
          (JoinHostPort service.IP (Itoa service.Port)) (uint64 service.TTL)] := by
  have h := sent_syncEtcdCluster impl w
  unfold sent at h ⊢
  rw [client_Register]
  show _ ++ [_] = _
  rw [h, List.append_assoc]
  rfl

theorem sent_Deregister {σ : Type} (impl : EtcdClient σ) (service : Service)
    (w : World (σ × List Request)) :
    sent (EtcdAdapter.Deregister (recording impl) service w).2 =
      sent w ++ [Request.SyncCluster,
        Request.Delete (w.r.path ++ "/" ++ service.Name ++ "/" ++ service.ID) false] := by
  have h := sent_syncEtcdCluster impl w
  unfold sent at h ⊢
  rw [client_Deregister]
  show _ ++ [_] = _
  rw [h, List.append_assoc]
  rfl

theorem sent_Ping {σ : Type} (impl : EtcdClient σ) (w : World (σ × List Request)) :
    sent (EtcdAdapter.Ping (recording impl) w).2 =
      sent w ++ [Request.SyncCluster, Request.SendRequest (NewRawRequest "GET" "version")] := by
  have h := sent_syncEtcdCluster impl w
  unfold sent at h ⊢
  rw [client_Ping]
  show _ ++ [_] = _
  rw [h, List.append_assoc]
  rfl

/-! ## Return value and log of the operations -/

theorem ret_Register {σ : Type} (impl : EtcdClient σ) (service : Service) (w : World σ) :
    (EtcdAdapter.Register impl service w).1 =
      (impl.Set (w.r.path ++ "/" ++ service.Name ++ "/" ++ service.ID)
        (JoinHostPort service.IP (Itoa service.Port)) (uint64 service.TTL)
        (EtcdAdapter.syncEtcdCluster impl w).r.client).1 := by
  unfold EtcdAdapter.Register
  simp only [path_syncEtcdCluster]
  split <;> rfl

theorem log_Register {σ : Type} (impl : EtcdClient σ) (service : Service) (w : World σ) :
    (EtcdAdapter.Register impl service w).2.log =
      (EtcdAdapter.syncEtcdCluster impl w).log ++
        (match (EtcdAdapter.Register impl service w).1 with
          | some e => [Sprintln ["etcd: failed to register service:", e.msg]]
          | none => []) := by
  rw [ret_Register]
  unfold EtcdAdapter.Register
  simp only [path_syncEtcdCluster]
  split
  · next e h => rw [h]; rfl
  · next h => rw [h]; simp [World.withClient]

theorem ret_Deregister {σ : Type} (impl : EtcdClient σ) (service : Service) (w : World σ) :
    (EtcdAdapter.Deregister impl service w).1 =
      (impl.Delete (w.r.path ++ "/" ++ service.Name ++ "/" ++ service.ID) false
        (EtcdAdapter.syncEtcdCluster impl w).r.client).1 := by
  unfold EtcdAdapter.Deregister
  simp only [path_syncEtcdCluster]
  split <;> rfl

theorem log_Deregister {σ : Type} (impl : EtcdClient σ) (service : Service) (w : World σ) :
    (EtcdAdapter.Deregister impl service w).2.log =
      (EtcdAdapter.syncEtcdCluster impl w).log ++
        (match (EtcdAdapter.Deregister impl service w).1 with
          | some e => [Sprintln ["etcd: failed to deregister service:", e.msg]]
          | none => []) := by
  rw [ret_Deregister]
  unfold EtcdAdapter.Deregister
  simp only [path_syncEtcdCluster]
  split
  · next e h => rw [h]; rfl
  · next h => rw [h]; simp [World.withClient]

theorem ret_Ping {σ : Type} (impl : EtcdClient σ) (w : World σ) :
    (EtcdAdapter.Ping impl w).1 =
      (impl.SendRequest (NewRawRequest "GET" "version")
        (EtcdAdapter.syncEtcdCluster impl w).r.client).1 := by
  unfold EtcdAdapter.Ping
  simp only []
  split
  · next e h => rw [h]
  · next h => rw [h]

theorem log_Ping {σ : Type} (impl : EtcdClient σ) (w : World σ) :
    (EtcdAdapter.Ping impl w).2.log = (EtcdAdapter.syncEtcdCluster impl w).log := by
  unfold EtcdAdapter.Ping
  simp only []
  split <;> rfl

/-! ## Register and Deregister: key, value, expiration -/

theorem path_Register {σ : Type} (impl : EtcdClient σ) (service : Service) (w : World σ) :
    (EtcdAdapter.Register impl service w).2.r.path = w.r.path := by
  unfold EtcdAdapter.Register
  simp only []
  split <;> exact path_syncEtcdCluster impl w

/-- C1, as stated, fails: for the service `web-1` on the IPv6 address `::1`, port 80, the value
that `Register` hands to the store is `[::1]:80`, which is not `s.IP ++ ":" ++ decimal(s.Port)`. -/
theorem C1_ipv6_value_is_bracketed :
    sent (EtcdAdapter.Register (recording (constClient true none)) ipv6Service
        (freshWorld "/services")).2 =
      [Request.SyncCluster, Request.Set "/services/web/web-1" "[::1]:80" 30] ∧
    "[::1]:80" ≠ ipv6Service.IP ++ ":" ++ Itoa ipv6Service.Port := by
  decide

/-- C1, amended: `Register(s)` sends, after the cluster refresh, one write whose value is
`s.IP ++ ":" ++ decimal(s.Port)` when `s.IP` contains no colon, and
`"[" ++ s.IP ++ "]:" ++ decimal(s.Port)` when it contains one. -/
theorem C1_register_value {σ : Type} (impl : EtcdClient σ) (s : Service)
    (w : World (σ × List Request)) :
    ∃ key ttl, sent (EtcdAdapter.Register (recording impl) s w).2 =
      sent w ++ [Request.SyncCluster,
        Request.Set key
          (if ':' ∈ s.IP.toList then "[" ++ s.IP ++ "]:" ++ Itoa s.Port
            else s.IP ++ ":" ++ Itoa s.Port) ttl] :=
  ⟨_, _, sent_Register impl s w⟩

/-- C2: `Register(s)` writes and `Deregister(s)` deletes the key
`P ++ "/" ++ s.Name ++ "/" ++ s.ID`, where `P` is the base path of the adapter; this holds for
either call alone and for `Deregister(s)` following `Register(s)`; the delete is sent with the
recursive flag off. -/
theorem C2_register_deregister_key {σ : Type} (impl : EtcdClient σ) (s : Service)
    (w : World (σ × List Request)) :
    ∃ value ttl,
      sent (EtcdAdapter.Register (recording impl) s w).2 =
        sent w ++ [Request.SyncCluster,
          Request.Set (w.r.path ++ "/" ++ s.Name ++ "/" ++ s.ID) value ttl] ∧
      sent (EtcdAdapter.Deregister (recording impl) s w).2 =
        sent w ++ [Request.SyncCluster,
          Request.Delete (w.r.path ++ "/" ++ s.Name ++ "/" ++ s.ID) false] ∧
      sent (EtcdAdapter.Deregister (recording impl) s
          (EtcdAdapter.Register (recording impl) s w).2).2 =
        sent w ++ [Request.SyncCluster,
          Request.Set (w.r.path ++ "/" ++ s.Name ++ "/" ++ s.ID) value ttl,
          Request.SyncCluster,
          Request.Delete (w.r.path ++ "/" ++ s.Name ++ "/" ++ s.ID) false] := by
  refine ⟨_, _, sent_Register impl s w, sent_Deregister impl s w, ?_⟩
  rw [sent_Deregister, sent_Register, path_Register, List.append_assoc]
  rfl

theorem uint64_of_goInt (x : Int) (h : isGoInt x) :
    (uint64 x : Int) = if 0 ≤ x then x else x + 2 ^ 64 := by
  unfold isGoInt at h
  unfold uint64
  rw [Int.toNat_of_nonneg (Int.emod_nonneg _ (by norm_num))]
  split <;> omega

/-- C3, as stated, fails: for a service with TTL `-1` the expiration that `Register` sends is
`18446744073709551615`, which is not `-1`. -/
theorem C3_negative_ttl_wraps :
    sent (EtcdAdapter.Register (recording (constClient true none)) negativeTTLService
        (freshWorld "/services")).2 =
      [Request.SyncCluster,
        Request.Set "/services/web/web-1" "10.0.0.7:8080" 18446744073709551615] ∧
    ((18446744073709551615 : Nat) : Int) ≠ negativeTTLService.TTL := by
  decide

/-- C3, amended: for a service `s` whose TTL is a Go `int`, the expiration that `Register(s)`
sends is `s.TTL` when `s.TTL` is zero or positive, and `s.TTL + 2^64` when it is negative. -/
theorem C3_register_ttl {σ : Type} (impl : EtcdClient σ) (s : Service)
    (w : World (σ × List Request)) (h : isGoInt s.TTL) :
    ∃ key value ttl,
      sent (EtcdAdapter.Register (recording impl) s w).2 =
        sent w ++ [Request.SyncCluster, Request.Set key value ttl] ∧
      (ttl : Int) = if 0 ≤ s.TTL then s.TTL else s.TTL + 2 ^ 64 :=
  ⟨_, _, _, sent_Register impl s w, uint64_of_goInt s.TTL h⟩

/-- C3, amended, at the service `web-1` with TTL 30 over a client that always succeeds. -/
theorem C3_register_ttl_witness :
    isGoInt plainService.TTL ∧
    ∃ key value ttl,
      sent (EtcdAdapter.Register (recording (constClient true none)) plainService
          (freshWorld "/services")).2 =
        sent (freshWorld "/services") ++ [Request.SyncCluster, Request.Set key value ttl] ∧
      (ttl : Int) = if 0 ≤ plainService.TTL then plainService.TTL else plainService.TTL + 2 ^ 64 :=
  ⟨by decide, C3_register_ttl (constClient true none) plainService (freshWorld "/services")
    (by decide)⟩

/-! ## Errors and logging -/

/-- C7, as stated, fails for `Ping`: over a client whose version request fails with
`connection refused`, `Ping` returns that error and leaves the log empty, while `Register`
over the same client adds an entry for its failure. -/
theorem C7_ping_failure_not_logged :
    (EtcdAdapter.Ping (recording (constClient true (some refused)))
        (freshWorld "/services")).1 = some refused ∧
    (EtcdAdapter.Ping (recording (constClient true (some refused)))
        (freshWorld "/services")).2.log = [] ∧
    (EtcdAdapter.Register (recording (constClient true (some refused))) plainService
        (freshWorld "/services")).2.log =
      ["etcd: failed to register service: connection refused\n"] := by
  decide

/-- C7, amended: `Register`, `Deregister`, `Refresh` and `Ping` each return exactly what the
client returned for the main request (the error `e` when it failed, no error when it
succeeded); `Register`, `Deregister` and `Refresh` add one log entry naming the error when it
failed and none when it succeeded; `Ping` adds no log entry for its request. -/
theorem C7_errors_returned_and_logged {σ : Type} (impl : EtcdClient σ) (s : Service)
    (w : World σ) :
    ((EtcdAdapter.Register impl s w).1 =
        (impl.Set (w.r.path ++ "/" ++ s.Name ++ "/" ++ s.ID)
          (JoinHostPort s.IP (Itoa s.Port)) (uint64 s.TTL)
          (EtcdAdapter.syncEtcdCluster impl w).r.client).1 ∧
      (EtcdAdapter.Register impl s w).2.log =
        (EtcdAdapter.syncEtcdCluster impl w).log ++
          (match (EtcdAdapter.Register impl s w).1 with
            | some e => [Sprintln ["etcd: failed to register service:", e.msg]]
            | none => [])) ∧
    ((EtcdAdapter.Deregister impl s w).1 =
        (impl.Delete (w.r.path ++ "/" ++ s.Name ++ "/" ++ s.ID) false
          (EtcdAdapter.syncEtcdCluster impl w).r.client).1 ∧
      (EtcdAdapter.Deregister impl s w).2.log =
        (EtcdAdapter.syncEtcdCluster impl w).log ++
          (match (EtcdAdapter.Deregister impl s w).1 with
            | some e => [Sprintln ["etcd: failed to deregister service:", e.msg]]
            | none => [])) ∧
    ((EtcdAdapter.Refresh impl s w).1 =
        (impl.Set (w.r.path ++ "/" ++ s.Name ++ "/" ++ s.ID)
          (JoinHostPort s.IP (Itoa s.Port)) (uint64 s.TTL)
          (EtcdAdapter.syncEtcdCluster impl w).r.client).1 ∧
      (EtcdAdapter.Refresh impl s w).2.log =
        (EtcdAdapter.syncEtcdCluster impl w).log ++
          (match (EtcdAdapter.Refresh impl s w).1 with
            | some e => [Sprintln ["etcd: failed to register service:", e.msg]]
            | none => [])) ∧
    ((EtcdAdapter.Ping impl w).1 =
        (impl.SendRequest (NewRawRequest "GET" "version")
          (EtcdAdapter.syncEtcdCluster impl w).r.client).1 ∧
      (EtcdAdapter.Ping impl w).2.log = (EtcdAdapter.syncEtcdCluster impl w).log) :=
  ⟨⟨ret_Register impl s w, log_Register impl s w⟩,
    ⟨ret_Deregister impl s w, log_Deregister impl s w⟩,
    ⟨ret_Register impl s w, log_Register impl s w⟩,
    ⟨ret_Ping impl w, log_Ping impl w⟩⟩

/-- C8: whatever the cluster refresh reports (`b`), `Ping` sends the refresh and then the
request `GET version`, returns exactly what the client returned for that request (an error if
and only if it failed), and the refresh result shows only in the log: one entry when it
reported failure, none otherwise. -/
theorem C8_ping_result_is_version_result {σ : Type} (impl : EtcdClient σ) (b : Bool)
    (w : World (σ × List Request)) :
    (EtcdAdapter.Ping (recording (withSyncResult impl b)) w).1 =
      (impl.SendRequest (NewRawRequest "GET" "version") (impl.SyncCluster w.r.client.1).2).1 ∧
    sent (EtcdAdapter.Ping (recording (withSyncResult impl b)) w).2 =
      sent w ++ [Request.SyncCluster, Request.SendRequest (NewRawRequest "GET" "version")] ∧
    (EtcdAdapter.Ping (recording (withSyncResult impl b)) w).2.log =
      w.log ++ (if b then [] else [Sprintln ["etcd: sync cluster was unsuccessful"]]) := by
  refine ⟨?_, sent_Ping _ w, ?_⟩
  · rw [ret_Ping, client_syncEtcdCluster]
    rfl
  · rw [log_Ping, log_syncEtcdCluster]
    rfl

/-- C9: over every client and from every state, `Refresh(s)` and `Register(s)` give the same
returned error, the same log and the same client state, the list of requests sent included. -/
theorem C9_refresh_is_register {σ : Type} (impl : EtcdClient σ) (s : Service)
    (w : World (σ × List Request)) :
    EtcdAdapter.Refresh (recording impl) s w = EtcdAdapter.Register (recording impl) s w ∧
    sent (EtcdAdapter.Refresh (recording impl) s w).2 =
      sent w ++ [Request.SyncCluster,
        Request.Set (w.r.path ++ "/" ++ s.Name ++ "/" ++ s.ID)
          (JoinHostPort s.IP (Itoa s.Port)) (uint64 s.TTL)] :=
  ⟨rfl, sent_Register impl s w⟩

/-- C10: after any sequence of `Register`, `Deregister`, `Refresh` and `Ping` calls,
`Services()` returns the empty list and no error, and leaves the adapter, the list of requests
sent and the log as they were. -/
theorem C10_services_empty {σ : Type} (impl : EtcdClient σ) (ops : List Op)
    (w : World (σ × List Request)) :
    (EtcdAdapter.Services (recording impl) (runOps (recording impl) ops w)).1 = ([], none) ∧
    (EtcdAdapter.Services (recording impl) (runOps (recording impl) ops w)).2 =
      runOps (recording impl) ops w ∧
    sent (EtcdAdapter.Services (recording impl) (runOps (recording impl) ops w)).2 =
      sent (runOps (recording impl) ops w) :=
  ⟨rfl, rfl, rfl⟩

/-! ## Client factory -/

theorem New_plain {κ ω : Type} (env : Env κ ω) (uri : URL) (o : ω)
    (hca : env.Getenv "ETCD_CA_CERT_FILE" = "") :
    Factory.New env uri o =
      (Except.ok ⟨(env.NewClient ["http://" ++ uri.Host] o).1, uri.Path⟩,
        (env.NewClient ["http://" ++ uri.Host] o).2) := by
  unfold Factory.New
  simp [hca]

theorem New_mutual {κ ω : Type} (env : Env κ ω) (uri : URL) (o : ω)
    (hca : env.Getenv "ETCD_CA_CERT_FILE" ≠ "") (hc : env.Getenv "ETCD_CERT_FILE" ≠ "")
    (hk : env.Getenv "ETCD_KEY_FILE" ≠ "") :
    Factory.New env uri o =
      ((match (env.NewTLSClient ["https://" ++ uri.Host] (env.Getenv "ETCD_CERT_FILE")
            (env.Getenv "ETCD_KEY_FILE") (env.Getenv "ETCD_CA_CERT_FILE") o).1 with
        | Except.ok client => Except.ok ⟨client, uri.Path⟩
        | Except.error err => Except.error ⟨"etcd: failure to connect: " ++ err.msg⟩),
        (env.NewTLSClient ["https://" ++ uri.Host] (env.Getenv "ETCD_CERT_FILE")
          (env.Getenv "ETCD_KEY_FILE") (env.Getenv "ETCD_CA_CERT_FILE") o).2) := by
  unfold Factory.New
  simp only [hca, hc, hk, ne_eq, not_false_eq_true, and_self, ite_true, List.nil_append]
  cases (env.NewTLSClient ["https://" ++ uri.Host] (env.Getenv "ETCD_CERT_FILE")
    (env.Getenv "ETCD_KEY_FILE") (env.Getenv "ETCD_CA_CERT_FILE") o).1 <;> rfl

theorem New_serverOnly {κ ω : Type} (env : Env κ ω) (uri : URL) (o : ω)
    (hca : env.Getenv "ETCD_CA_CERT_FILE" ≠ "")
    (h : env.Getenv "ETCD_CERT_FILE" = "" ∨ env.Getenv "ETCD_KEY_FILE" = "") :
    Factory.New env uri o =
      (match (env.ReadFile (env.Getenv "ETCD_CA_CERT_FILE")
          (env.NewClient ["https://" ++ uri.Host] o).2).1 with
        | Except.ok ca =>
          (Except.ok ⟨(env.SetTransport (env.NewClient ["https://" ++ uri.Host] o).1
              ⟨⟨env.DecodePEM ca⟩, true⟩
              (env.ReadFile (env.Getenv "ETCD_CA_CERT_FILE")
                (env.NewClient ["https://" ++ uri.Host] o).2).2).1, uri.Path⟩,
            (env.SetTransport (env.NewClient ["https://" ++ uri.Host] o).1
              ⟨⟨env.DecodePEM ca⟩, true⟩
              (env.ReadFile (env.Getenv "ETCD_CA_CERT_FILE")
                (env.NewClient ["https://" ++ uri.Host] o).2).2).2)
        | Except.error err =>
          (Except.error ⟨err.msg⟩,
            (env.ReadFile (env.Getenv "ETCD_CA_CERT_FILE")
              (env.NewClient ["https://" ++ uri.Host] o).2).2)) := by
  have hn : ¬ (env.Getenv "ETCD_KEY_FILE" ≠ "" ∧ env.Getenv "ETCD_CERT_FILE" ≠ "") := by
    rintro ⟨h1, h2⟩
    rcases h with h | h
    · exact h2 h
    · exact h1 h
  unfold Factory.New
  simp only [hca, hn, ne_eq, not_false_eq_true, ite_true, ite_false, List.nil_append]
  cases (env.ReadFile (env.Getenv "ETCD_CA_CERT_FILE")
    (env.NewClient ["https://" ++ uri.Host] o).2).1 <;>
    simp [AppendCertsFromPEM, NewCertPool]

theorem made_plain {κ ω : Type} (env : Env κ ω) (uri : URL) (o : ω × List Call)
    (hca : env.Getenv "ETCD_CA_CERT_FILE" = "") :
    madeSince o (Factory.New (recordingEnv env) uri o).2 =
      [Call.NewClient ["http://" ++ uri.Host]] := by
  rw [New_plain (recordingEnv env) uri o hca]
  simp [madeSince, calls, recordingEnv]

theorem made_mutual {κ ω : Type} (env : Env κ ω) (uri : URL) (o : ω × List Call)
    (hca : env.Getenv "ETCD_CA_CERT_FILE" ≠ "") (hc : env.Getenv "ETCD_CERT_FILE" ≠ "")
    (hk : env.Getenv "ETCD_KEY_FILE" ≠ "") :
    madeSince o (Factory.New (recordingEnv env) uri o).2 =
      [Call.NewTLSClient ["https://" ++ uri.Host] (env.Getenv "ETCD_CERT_FILE")
        (env.Getenv "ETCD_KEY_FILE") (env.Getenv "ETCD_CA_CERT_FILE")] := by
  rw [New_mutual (recordingEnv env) uri o hca hc hk]
  simp [madeSince, calls, recordingEnv]

theorem made_serverOnly {κ ω : Type} (env : Env κ ω) (uri : URL) (o : ω × List Call)
    (hca : env.Getenv "ETCD_CA_CERT_FILE" ≠ "")
    (h : env.Getenv "ETCD_CERT_FILE" = "" ∨ env.Getenv "ETCD_KEY_FILE" = "") :
    madeSince o (Factory.New (recordingEnv env) uri o).2 =
      match (env.ReadFile (env.Getenv "ETCD_CA_CERT_FILE")
          (env.NewClient ["https://" ++ uri.Host] o.1).2).1 with
      | Except.ok ca =>
        [Call.NewClient ["https://" ++ uri.Host],
          Call.ReadFile (env.Getenv "ETCD_CA_CERT_FILE"),
          Call.SetTransport ⟨⟨env.DecodePEM ca⟩, true⟩]
      | Except.error _ =>
        [Call.NewClient ["https://" ++ uri.Host],
          Call.ReadFile (env.Getenv "ETCD_CA_CERT_FILE")] := by
  rw [New_serverOnly (recordingEnv env) uri o hca h]
  simp only [recordingEnv]
  cases (env.ReadFile (env.Getenv "ETCD_CA_CERT_FILE")
    (env.NewClient ["https://" ++ uri.Host] o.1).2).1 <;>
    simp [madeSince, calls]

theorem out_plain {κ ω : Type} (env : Env κ ω) (uri : URL) (o : ω × List Call)
    (hca : env.Getenv "ETCD_CA_CERT_FILE" = "") :
    (Factory.New (recordingEnv env) uri o).1 =
      Except.ok ⟨(env.NewClient ["http://" ++ uri.Host] o.1).1, uri.Path⟩ := by
  rw [New_plain (recordingEnv env) uri o hca]
  rfl

theorem out_mutual {κ ω : Type} (env : Env κ ω) (uri : URL) (o : ω × List Call)
    (hca : env.Getenv "ETCD_CA_CERT_FILE" ≠ "") (hc : env.Getenv "ETCD_CERT_FILE" ≠ "")
    (hk : env.Getenv "ETCD_KEY_FILE" ≠ "") :
    (Factory.New (recordingEnv env) uri o).1 =
      match (env.NewTLSClient ["https://" ++ uri.Host] (env.Getenv "ETCD_CERT_FILE")
          (env.Getenv "ETCD_KEY_FILE") (env.Getenv "ETCD_CA_CERT_FILE") o.1).1 with
      | Except.ok client => Except.ok ⟨client, uri.Path⟩
      | Except.error err => Except.error ⟨"etcd: failure to connect: " ++ err.msg⟩ := by
  rw [New_mutual (recordingEnv env) uri o hca hc hk]
  rfl

theorem out_serverOnly {κ ω : Type} (env : Env κ ω) (uri : URL) (o : ω × List Call)
    (hca : env.Getenv "ETCD_CA_CERT_FILE" ≠ "")
    (h : env.Getenv "ETCD_CERT_FILE" = "" ∨ env.Getenv "ETCD_KEY_FILE" = "") :
    (Factory.New (recordingEnv env) uri o).1 =
      match (env.ReadFile (env.Getenv "ETCD_CA_CERT_FILE")
          (env.NewClient ["https://" ++ uri.Host] o.1).2).1 with
      | Except.ok ca =>
        Except.ok ⟨(env.SetTransport (env.NewClient ["https://" ++ uri.Host] o.1).1
          ⟨⟨env.DecodePEM ca⟩, true⟩
          (env.ReadFile (env.Getenv "ETCD_CA_CERT_FILE")
            (env.NewClient ["https://" ++ uri.Host] o.1).2).2).1, uri.Path⟩
      | Except.error err => Except.error ⟨err.msg⟩ := by
  rw [New_serverOnly (recordingEnv env) uri o hca h]
  simp only [recordingEnv]
  cases (env.ReadFile (env.Getenv "ETCD_CA_CERT_FILE")
    (env.NewClient ["https://" ++ uri.Host] o.1).2).1 <;> rfl

/-- C4: over every outside, `Factory.New` calls exactly one client constructor, with a member
list of exactly one URL: `"https://" ++ host` when `ETCD_CA_CERT_FILE` is set and
`"http://" ++ host` when it is empty, whatever `ETCD_CERT_FILE` and `ETCD_KEY_FILE` hold. The
client in the adapter it returns is the one that constructor returned for that list: with the
CA path empty `NewClient`, always; with all three paths set `NewTLSClient`, unless it returned
an error, which is fatal; with the CA path set and certificate or key empty `NewClient`, with
the transport replaced, unless the CA file could not be read, which is fatal. -/
theorem C4_single_member_url {κ ω : Type} (env : Env κ ω) (uri : URL) (o : ω × List Call) :
    (madeSince o (Factory.New (recordingEnv env) uri o).2).filterMap Call.machines? =
      [[(if env.Getenv "ETCD_CA_CERT_FILE" ≠ "" then "https://" else "http://") ++ uri.Host]] ∧
    (env.Getenv "ETCD_CA_CERT_FILE" = "" →
      (Factory.New (recordingEnv env) uri o).1 =
        Except.ok ⟨(env.NewClient ["http://" ++ uri.Host] o.1).1, uri.Path⟩) ∧
    (env.Getenv "ETCD_CA_CERT_FILE" ≠ "" → env.Getenv "ETCD_CERT_FILE" ≠ "" →
      env.Getenv "ETCD_KEY_FILE" ≠ "" →
      (Factory.New (recordingEnv env) uri o).1 =
        match (env.NewTLSClient ["https://" ++ uri.Host] (env.Getenv "ETCD_CERT_FILE")
            (env.Getenv "ETCD_KEY_FILE") (env.Getenv "ETCD_CA_CERT_FILE") o.1).1 with
        | Except.ok client => Except.ok ⟨client, uri.Path⟩
        | Except.error err => Except.error ⟨"etcd: failure to connect: " ++ err.msg⟩) ∧
    (env.Getenv "ETCD_CA_CERT_FILE" ≠ "" →
      (env.Getenv "ETCD_CERT_FILE" = "" ∨ env.Getenv "ETCD_KEY_FILE" = "") →
      (Factory.New (recordingEnv env) uri o).1 =
        match (env.ReadFile (env.Getenv "ETCD_CA_CERT_FILE")
            (env.NewClient ["https://" ++ uri.Host] o.1).2).1 with
        | Except.ok ca =>
          Except.ok ⟨(env.SetTransport (env.NewClient ["https://" ++ uri.Host] o.1).1
            ⟨⟨env.DecodePEM ca⟩, true⟩
            (env.ReadFile (env.Getenv "ETCD_CA_CERT_FILE")
              (env.NewClient ["https://" ++ uri.Host] o.1).2).2).1, uri.Path⟩
        | Except.error err => Except.error ⟨err.msg⟩) := by
  refine ⟨?_, out_plain env uri o, out_mutual env uri o, out_serverOnly env uri o⟩
  by_cases hca : env.Getenv "ETCD_CA_CERT_FILE" = ""
  · rw [made_plain env uri o hca]
    simp [hca, Call.machines?]
  · by_cases h : env.Getenv "ETCD_CERT_FILE" = "" ∨ env.Getenv "ETCD_KEY_FILE" = ""
    · rw [made_serverOnly env uri o hca h]
      cases (env.ReadFile (env.Getenv "ETCD_CA_CERT_FILE")
        (env.NewClient ["https://" ++ uri.Host] o.1).2).1 <;> simp [hca, Call.machines?]
    · rw [not_or] at h
      rw [made_mutual env uri o hca h.1 h.2]
      simp [hca, Call.machines?]

/-- C4 at three outsides over described clients: with certificate and key set and the CA path
empty the adapter holds a plain client on `http://etcd:2379`; with all three paths set a TLS
client on `https://etcd:2379`; with only the CA path set a plain client on
`https://etcd:2379` whose transport was replaced. -/
theorem C4_single_member_url_witness :
    (Factory.New (recordingEnv plainEnv) sampleURI ((), [])).1 =
      Except.ok ⟨⟨["http://etcd:2379"], none, none⟩, "/services"⟩ ∧
    (Factory.New (recordingEnv mutualEnv) sampleURI ((), [])).1 =
      Except.ok ⟨⟨["https://etcd:2379"],
        some ("/tls/client.pem", "/tls/client.key", "/tls/ca.pem"), none⟩, "/services"⟩ ∧
    (Factory.New (recordingEnv serverOnlyEnv) sampleURI ((), [])).1 =
      Except.ok ⟨⟨["https://etcd:2379"], none, some ⟨⟨["ca"]⟩, true⟩⟩, "/services"⟩ :=
  ⟨(C4_single_member_url plainEnv sampleURI ((), [])).2.1 (by decide),
    (C4_single_member_url mutualEnv sampleURI ((), [])).2.2.1 (by decide) (by decide)
      (by decide),
    (C4_single_member_url serverOnlyEnv sampleURI ((), [])).2.2.2 (by decide) (by decide)⟩

/-- C5: over every outside, `Factory.New` calls the mutual-TLS constructor if and only if the
CA, certificate and key paths are all set; it then makes that one call, with the certificate,
key and CA paths, and returns the client it gave, or ends fatally on its error. With the CA
path set and the certificate or the key path empty it builds a plain client on the https URL
and reads the CA file; once read, it puts in place a transport whose trust pool holds the
certificates of that file only and whose compression is disabled, and returns that client; an
unreadable file is fatal. With the CA path empty it builds and returns a plain client on the
http URL and opens no file, whatever the certificate and key paths are. -/
theorem C5_construction_paths {κ ω : Type} (env : Env κ ω) (uri : URL) (o : ω × List Call) :
    ((madeSince o (Factory.New (recordingEnv env) uri o).2).any Call.isTLSConstructor = true ↔
      env.Getenv "ETCD_CA_CERT_FILE" ≠ "" ∧ env.Getenv "ETCD_CERT_FILE" ≠ "" ∧
        env.Getenv "ETCD_KEY_FILE" ≠ "") ∧
    (env.Getenv "ETCD_CA_CERT_FILE" ≠ "" → env.Getenv "ETCD_CERT_FILE" ≠ "" →
      env.Getenv "ETCD_KEY_FILE" ≠ "" →
      madeSince o (Factory.New (recordingEnv env) uri o).2 =
        [Call.NewTLSClient ["https://" ++ uri.Host] (env.Getenv "ETCD_CERT_FILE")
          (env.Getenv "ETCD_KEY_FILE") (env.Getenv "ETCD_CA_CERT_FILE")] ∧
      (Factory.New (recordingEnv env) uri o).1 =
        match (env.NewTLSClient ["https://" ++ uri.Host] (env.Getenv "ETCD_CERT_FILE")
            (env.Getenv "ETCD_KEY_FILE") (env.Getenv "ETCD_CA_CERT_FILE") o.1).1 with
        | Except.ok client => Except.ok ⟨client, uri.Path⟩
        | Except.error err => Except.error ⟨"etcd: failure to connect: " ++ err.msg⟩) ∧
    (env.Getenv "ETCD_CA_CERT_FILE" ≠ "" →
      (env.Getenv "ETCD_CERT_FILE" = "" ∨ env.Getenv "ETCD_KEY_FILE" = "") →
      (madeSince o (Factory.New (recordingEnv env) uri o).2 =
        match (env.ReadFile (env.Getenv "ETCD_CA_CERT_FILE")
            (env.NewClient ["https://" ++ uri.Host] o.1).2).1 with
        | Except.ok ca =>
          [Call.NewClient ["https://" ++ uri.Host],
            Call.ReadFile (env.Getenv "ETCD_CA_CERT_FILE"),
            Call.SetTransport ⟨⟨env.DecodePEM ca⟩, true⟩]
        | Except.error _ =>
          [Call.NewClient ["https://" ++ uri.Host],
            Call.ReadFile (env.Getenv "ETCD_CA_CERT_FILE")]) ∧
      (Factory.New (recordingEnv env) uri o).1 =
        match (env.ReadFile (env.Getenv "ETCD_CA_CERT_FILE")
            (env.NewClient ["https://" ++ uri.Host] o.1).2).1 with
        | Except.ok ca =>
          Except.ok ⟨(env.SetTransport (env.NewClient ["https://" ++ uri.Host] o.1).1
            ⟨⟨env.DecodePEM ca⟩, true⟩
            (env.ReadFile (env.Getenv "ETCD_CA_CERT_FILE")
              (env.NewClient ["https://" ++ uri.Host] o.1).2).2).1, uri.Path⟩
        | Except.error err => Except.error ⟨err.msg⟩) ∧
    (env.Getenv "ETCD_CA_CERT_FILE" = "" →
      madeSince o (Factory.New (recordingEnv env) uri o).2 =
        [Call.NewClient ["http://" ++ uri.Host]] ∧
      (madeSince o (Factory.New (recordingEnv env) uri o).2).any Call.readsFile = false ∧
      (Factory.New (recordingEnv env) uri o).1 =
        Except.ok ⟨(env.NewClient ["http://" ++ uri.Host] o.1).1, uri.Path⟩) := by
  refine ⟨?_, fun hca hc hk => ⟨made_mutual env uri o hca hc hk, out_mutual env uri o hca hc hk⟩,
    fun hca h => ⟨made_serverOnly env uri o hca h, out_serverOnly env uri o hca h⟩,
    fun hca => ⟨made_plain env uri o hca, ?_, out_plain env uri o hca⟩⟩
  · by_cases hca : env.Getenv "ETCD_CA_CERT_FILE" = ""
    · rw [made_plain env uri o hca]
      simp [hca, Call.isTLSConstructor]
    · by_cases h : env.Getenv "ETCD_CERT_FILE" = "" ∨ env.Getenv "ETCD_KEY_FILE" = ""
      · rw [made_serverOnly env uri o hca h]
        have hn : ¬ (env.Getenv "ETCD_CERT_FILE" ≠ "" ∧ env.Getenv "ETCD_KEY_FILE" ≠ "") := by
          rintro ⟨h1, h2⟩
          rcases h with h | h
          · exact h1 h
          · exact h2 h
        cases (env.ReadFile (env.Getenv "ETCD_CA_CERT_FILE")
          (env.NewClient ["https://" ++ uri.Host] o.1).2).1 <;>
          simp [Call.isTLSConstructor, hn]
      · rw [not_or] at h
        rw [made_mutual env uri o hca h.1 h.2]
        simp [hca, h.1, h.2, Call.isTLSConstructor]
  · rw [made_plain env uri o hca]
    simp [Call.readsFile]

/-- C5 at three outsides over described clients: all three paths set, only the CA path set,
and the CA path empty with certificate and key set. -/
theorem C5_construction_paths_witness :
    (madeSince ((), []) (Factory.New (recordingEnv mutualEnv) sampleURI ((), [])).2 =
        [Call.NewTLSClient ["https://etcd:2379"] "/tls/client.pem" "/tls/client.key"
          "/tls/ca.pem"] ∧
      (Factory.New (recordingEnv mutualEnv) sampleURI ((), [])).1 =
        Except.ok ⟨⟨["https://etcd:2379"],
          some ("/tls/client.pem", "/tls/client.key", "/tls/ca.pem"), none⟩, "/services"⟩) ∧
    (madeSince ((), []) (Factory.New (recordingEnv serverOnlyEnv) sampleURI ((), [])).2 =
        [Call.NewClient ["https://etcd:2379"], Call.ReadFile "/tls/ca.pem",
          Call.SetTransport ⟨⟨["ca"]⟩, true⟩] ∧
      (Factory.New (recordingEnv serverOnlyEnv) sampleURI ((), [])).1 =
        Except.ok ⟨⟨["https://etcd:2379"], none, some ⟨⟨["ca"]⟩, true⟩⟩, "/services"⟩) ∧
    (madeSince ((), []) (Factory.New (recordingEnv plainEnv) sampleURI ((), [])).2 =
        [Call.NewClient ["http://etcd:2379"]] ∧
      (madeSince ((), []) (Factory.New (recordingEnv plainEnv) sampleURI ((), [])).2).any
        Call.readsFile = false ∧
      (Factory.New (recordingEnv plainEnv) sampleURI ((), [])).1 =
        Except.ok ⟨⟨["http://etcd:2379"], none, none⟩, "/services"⟩) :=
  ⟨(C5_construction_paths mutualEnv sampleURI ((), [])).2.1 (by decide) (by decide)
      (by decide),
    (C5_construction_paths serverOnlyEnv sampleURI ((), [])).2.2.1 (by decide) (by decide),
    (C5_construction_paths plainEnv sampleURI ((), [])).2.2.2 (by decide)⟩

/-- C6 fails on the server-only path: with only the CA path set and a CA file that is readable
but holds nothing that parses as a certificate, `AppendCertsFromPEM` reports failure, and
`Factory.New` nevertheless returns an adapter, whose transport trusts an empty pool. -/
theorem C6_unparseable_ca_returns_adapter :
    (AppendCertsFromPEM unparseableCAEnv NewCertPool "not a certificate").1 = false ∧
    calls (Factory.New (recordingEnv unparseableCAEnv) sampleURI ((), [])).2 =
      [Call.NewClient ["https://etcd:2379"], Call.ReadFile "/tls/ca.pem",
        Call.SetTransport ⟨⟨[]⟩, true⟩] ∧
    (Factory.New (recordingEnv unparseableCAEnv) sampleURI ((), [])).1 =
      Except.ok ⟨⟨["https://etcd:2379"], none, some ⟨⟨[]⟩, true⟩⟩, "/services"⟩ :=
  ⟨rfl, rfl, rfl⟩

/-- The part of C6 that holds: with the CA path set, an error of `ReadFile` on the server-only
path and an error of `NewTLSClient` on the mutual-TLS path end in a fatal error. -/
theorem New_fatal_on_error {κ ω : Type} (env : Env κ ω) (uri : URL) (o : ω × List Call)
    (hca : env.Getenv "ETCD_CA_CERT_FILE" ≠ "") :
    (env.Getenv "ETCD_CERT_FILE" ≠ "" → env.Getenv "ETCD_KEY_FILE" ≠ "" →
      ∀ err, (env.NewTLSClient ["https://" ++ uri.Host] (env.Getenv "ETCD_CERT_FILE")
          (env.Getenv "ETCD_KEY_FILE") (env.Getenv "ETCD_CA_CERT_FILE") o.1).1 =
            Except.error err →
        (Factory.New (recordingEnv env) uri o).1 =
          Except.error ⟨"etcd: failure to connect: " ++ err.msg⟩) ∧
    ((env.Getenv "ETCD_CERT_FILE" = "" ∨ env.Getenv "ETCD_KEY_FILE" = "") →
      ∀ err, (env.ReadFile (env.Getenv "ETCD_CA_CERT_FILE")
          (env.NewClient ["https://" ++ uri.Host] o.1).2).1 = Except.error err →
        (Factory.New (recordingEnv env) uri o).1 = Except.error ⟨err.msg⟩) := by
  constructor
  · intro hc hk err herr
    rw [out_mutual env uri o hca hc hk, herr]
  · intro h err herr
    rw [out_serverOnly env uri o hca h, herr]

end Etcd2
